import Mathlib

/-!
Verification of the ThermaScan EV battery dashboard's simulation and
anomaly-detection engine (src/script.js), shallowly embedded in Lean 4.

JavaScript numbers are modelled as rationals (ℚ); every `Math.random()`
draw is passed in as an explicit parameter assumed to lie in [0, 1).
The global `batteryData` array is modelled as a `List BatteryCell`
threaded explicitly through each operation.
-/

namespace ThermaScan

/-- The `anomalyStatus` strings used by script.js. -/
inductive AnomalyStatus where
  | NORMAL
  | WARNING
  | CRITICAL
deriving DecidableEq, Repr

/-- One battery cell, mirroring the fields of `class BatteryCell`. -/
structure BatteryCell where
  id : String
  row : Nat
  col : Nat
  temperature : ℚ
  voltage : ℚ
  current : ℚ
  soc : ℚ
  soh : ℚ
  resistance : ℚ
  cycles : Int
  anomalyStatus : AnomalyStatus
deriving DecidableEq, Repr

-- CONFIG constants from script.js
def ROWS : Nat := 8
def COLS : Nat := 12
def TOTAL_CELLS : Nat := 96
def COOL_MAX : ℚ := 28
def NORMAL_MAX : ℚ := 40
def ELEVATED_MAX : ℚ := 45
def WARNING_MAX : ℚ := 55
def CRITICAL_TEMP : ℚ := 55
def VOLTAGE_DEVIATION : ℚ := 1/10
def SOH_CRITICAL : ℚ := 70

/-- `randomInRange(min, max)` = `Math.random() * (max - min) + min`,
with the `Math.random()` draw `r` made explicit. -/
def randomInRange (lo hi r : ℚ) : ℚ := r * (hi - lo) + lo

/-- The `BatteryCell` constructor; `r1 .. r7` are the seven
`Math.random()` draws it consumes, in source order. -/
def BatteryCell.create (id : String) (row col : Nat)
    (r1 r2 r3 r4 r5 r6 r7 : ℚ) : BatteryCell :=
  { id := id
    row := row
    col := col
    temperature := randomInRange 25 35 r1
    voltage := randomInRange (36/10) (38/10) r2
    current := randomInRange (-5) 20 r3
    soc := randomInRange 60 100 r4
    soh := randomInRange 80 100 r5
    resistance := randomInRange 1 5 r6
    cycles := ⌊randomInRange 200 1200 r7⌋
    anomalyStatus := .NORMAL }

/-- `BatteryCell.update()`: random-walk perturbation then clamping of
temperature, voltage and soc; `r1 .. r4` are the four `Math.random()`
draws, in source order. -/
def BatteryCell.update (c : BatteryCell) (r1 r2 r3 r4 : ℚ) : BatteryCell :=
  { c with
    temperature := max 20 (min 60 (c.temperature + (r1 - 1/2) * (1/2)))
    voltage := max 3 (min (21/5) (c.voltage + (r2 - 1/2) * (1/100)))
    current := c.current + (r3 - 1/2) * 2
    soc := max 0 (min 100 (c.soc + (r4 - 1/2) * (1/2))) }

/-- `getNeighbors(index)`: the up-to-8 Moore neighbours inside the
8×12 grid, produced in the source's (dr, dc) loop order. -/
def getNeighbors (index : Nat) : List Nat :=
  let row : Int := (index : Int) / (COLS : Int)
  let col : Int := (index : Int) % (COLS : Int)
  ([-1, 0, 1] : List Int).flatMap fun dr =>
    ([-1, 0, 1] : List Int).filterMap fun dc =>
      if dr = 0 ∧ dc = 0 then none
      else
        let newRow := row + dr
        let newCol := col + dc
        if 0 ≤ newRow ∧ newRow < (ROWS : Int) ∧ 0 ≤ newCol ∧ newCol < (COLS : Int) then
          some (newRow * (COLS : Int) + newCol).toNat
        else none

/-- Pack-average voltage, `reduce((sum, cell) => sum + cell.voltage, 0) / length`. -/
def avgVoltage (pack : List BatteryCell) : ℚ :=
  (pack.foldl (fun s c => s + c.voltage) 0) / (pack.length : ℚ)

/-- The per-cell status computed by one pass of `detectAnomalies` given
the pre-computed pack-average voltage: reset to NORMAL, temperature
rules, voltage-deviation rule (escalates only from NORMAL), then the
soh rule which forces CRITICAL. -/
def classifyCell (avg : ℚ) (c : BatteryCell) : AnomalyStatus :=
  let s1 : AnomalyStatus :=
    if c.temperature > CRITICAL_TEMP then .CRITICAL
    else if c.temperature > WARNING_MAX then .WARNING
    else .NORMAL
  let voltageDev := |c.voltage - avg| / avg
  let s2 : AnomalyStatus :=
    if voltageDev > VOLTAGE_DEVIATION then
      (if s1 = .NORMAL then .WARNING else s1)
    else s1
  if c.soh < SOH_CRITICAL then .CRITICAL else s2

/-- `detectAnomalies()`: computes the pack-average voltage once, then
rewrites every cell's `anomalyStatus` from its current fields. -/
def detectAnomalies (pack : List BatteryCell) : List BatteryCell :=
  pack.map fun c => { c with anomalyStatus := classifyCell (avgVoltage pack) c }

/-- `isThermalCluster(index)`: the cell itself must be at or above
`ELEVATED_MAX`, and at least 2 of its grid neighbours as well. -/
def isThermalCluster (pack : List BatteryCell) (index : Nat) : Bool :=
  match pack[index]? with
  | none => false
  | some cell =>
    if cell.temperature < ELEVATED_MAX then false
    else
      let hot := (getNeighbors index).filter fun n =>
        match pack[n]? with
        | some c => decide (ELEVATED_MAX ≤ c.temperature)
        | none => false
      decide (2 ≤ hot.length)

/-- Cells whose `anomalyStatus` is CRITICAL (`updateAnomalyStatus`). -/
def criticalCells (pack : List BatteryCell) : List BatteryCell :=
  pack.filter fun c => decide (c.anomalyStatus = .CRITICAL)

/-- Cells whose `anomalyStatus` is WARNING (`updateAnomalyStatus`). -/
def warningCells (pack : List BatteryCell) : List BatteryCell :=
  pack.filter fun c => decide (c.anomalyStatus = .WARNING)

/-- Indices of cluster-member cells,
`batteryData.filter((_, index) => isThermalCluster(index))`. -/
def clusterCells (pack : List BatteryCell) : List Nat :=
  (List.range pack.length).filter fun i => isThermalCluster pack i

/-- The aggregate banner text chosen by `updateAnomalyStatus`. -/
def aggregateStatus (pack : List BatteryCell) : String :=
  if 0 < (criticalCells pack).length then
    if 3 ≤ (clusterCells pack).length then "THERMAL CLUSTER DETECTED"
    else "CRITICAL"
  else if 0 < (warningCells pack).length then "WARNING"
  else "NORMAL"

/-- One `{time, avg, max, min}` temperature-history sample. -/
structure TempSample where
  time : String
  avg : ℚ
  hi : ℚ
  lo : ℚ
deriving DecidableEq, Repr

/-- Maximum of a temperature list (`Math.max(...temps)`; packs are
never empty, the empty case defaults to 0). -/
def listMax (l : List ℚ) : ℚ :=
  match l with
  | [] => 0
  | x :: xs => xs.foldl max x

/-- Minimum of a temperature list (`Math.min(...temps)`). -/
def listMin (l : List ℚ) : ℚ :=
  match l with
  | [] => 0
  | x :: xs => xs.foldl min x

/-- The temperature sample `updateMetrics` pushes each tick. -/
def mkTempSample (time : String) (pack : List BatteryCell) : TempSample :=
  let temps := pack.map (·.temperature)
  { time := time
    avg := (temps.foldl (· + ·) 0) / (temps.length : ℚ)
    hi := listMax temps
    lo := listMin temps }

/-- The history maintenance in `updateMetrics`: push one sample, then
`if (tempHistory.length > 20) tempHistory.shift()`. -/
def pushSample (hist : List TempSample) (s : TempSample) : List TempSample :=
  let h2 := hist ++ [s]
  if 20 < h2.length then h2.drop 1 else h2

/-- The history after folding `pushSample` over a sequence of samples,
starting from the empty initial `tempHistory`. -/
def histFold (samples : List TempSample) : List TempSample :=
  samples.foldl pushSample []

/-- Temperature history after a sequence of ticks, each described by
its wall-clock label and the pack state at that tick. -/
def runMetrics (inputs : List (String × List BatteryCell)) : List TempSample :=
  inputs.foldl (fun h q => pushSample h (mkTempSample q.1 q.2)) []

/-- In-place mutation `batteryData[i] = f(batteryData[i])` on the
modelled pack (out-of-range index leaves the pack unchanged). -/
def updateCellAt (pack : List BatteryCell) (i : Nat)
    (f : BatteryCell → BatteryCell) : List BatteryCell :=
  match pack, i with
  | [], _ => []
  | c :: rest, 0 => f c :: rest
  | c :: rest, n + 1 => c :: updateCellAt rest n f

/-- `simulateFault()`: `faultType` is the branch-selecting
`Math.random()` draw, `randomIndex` the chosen cell index
(`Math.floor(Math.random() * length)`), and `draws k` the k-th
subsequent `Math.random()` draw consumed by the selected branch. -/
def simulateFault (pack : List BatteryCell) (faultType : ℚ)
    (randomIndex : Nat) (draws : Nat → ℚ) : List BatteryCell :=
  if faultType < 33/100 then
    updateCellAt pack randomIndex
      (fun c => { c with temperature := CRITICAL_TEMP + draws 0 * 10 })
  else if faultType < 66/100 then
    let ns := getNeighbors randomIndex
    let p1 := updateCellAt pack randomIndex
      (fun c => { c with temperature := ELEVATED_MAX + draws 0 * 5 })
    ((ns.take 3).enum).foldl
      (fun acc kn => updateCellAt acc kn.2
        (fun c => { c with temperature := ELEVATED_MAX + draws (kn.1 + 1) * 5 }))
      p1
  else
    let avg := avgVoltage pack
    updateCellAt pack randomIndex
      (fun c => { c with voltage := avg * (1 + VOLTAGE_DEVIATION + 5/100) })

/-- The temperature write `simulateFault` applies to the cluster center. -/
def clusterCenterSet (draws : Nat → ℚ) : BatteryCell → BatteryCell :=
  fun c => { c with temperature := ELEVATED_MAX + draws 0 * 5 }

/-- The temperature write `simulateFault` applies to the k-th selected
neighbour of the cluster center. -/
def clusterNeighborSet (draws : Nat → ℚ) (k : Nat) : BatteryCell → BatteryCell :=
  fun c => { c with temperature := ELEVATED_MAX + draws (k + 1) * 5 }

/-- Written from the spec's words for claim C2 (threshold 40): the cell's
temperature is ≥ 40 and at least 2 of its grid neighbours have
temperature ≥ 40.  Used to compare the claim's wording with the code. -/
def clusterSpec40 (pack : List BatteryCell) (index : Nat) : Bool :=
  match pack[index]? with
  | none => false
  | some cell =>
    decide (NORMAL_MAX ≤ cell.temperature) &&
    decide (2 ≤ ((getNeighbors index).filter fun n =>
      match pack[n]? with
      | some c => decide (NORMAL_MAX ≤ c.temperature)
      | none => false).length)

/-- The spec-style cluster predicate with the threshold the code
actually uses (`ELEVATED_MAX` = 45): the cell's temperature is ≥ 45 and
at least 2 of its grid neighbours have temperature ≥ 45. -/
def clusterSpec45 (pack : List BatteryCell) (index : Nat) : Bool :=
  match pack[index]? with
  | none => false
  | some cell =>
    decide (ELEVATED_MAX ≤ cell.temperature) &&
    decide (2 ≤ ((getNeighbors index).filter fun n =>
      match pack[n]? with
      | some c => decide (ELEVATED_MAX ≤ c.temperature)
      | none => false).length)

/-- A linear index denoting one of the 4 corner cells of the 8×12 grid. -/
def isCornerIdx (i : Nat) : Bool :=
  decide ((i / COLS = 0 ∨ i / COLS = ROWS - 1) ∧ (i % COLS = 0 ∨ i % COLS = COLS - 1))

/-- A linear index on the boundary of the 8×12 grid but not a corner. -/
def isEdgeNonCornerIdx (i : Nat) : Bool :=
  decide (i / COLS = 0 ∨ i / COLS = ROWS - 1 ∨ i % COLS = 0 ∨ i % COLS = COLS - 1)
    && !isCornerIdx i

/-- A linear index strictly inside the 8×12 grid. -/
def isInteriorIdx (i : Nat) : Bool :=
  decide (0 < i / COLS ∧ i / COLS < ROWS - 1 ∧ 0 < i % COLS ∧ i % COLS < COLS - 1)

/-- A concrete cell with the given temperature, voltage and soh, used to
build concrete packs for counterexamples and witnesses. -/
def mkCell (t v s : ℚ) : BatteryCell :=
  { id := "CELL-000"
    row := 0
    col := 0
    temperature := t
    voltage := v
    current := 0
    soc := 80
    soh := s
    resistance := 2
    cycles := 500
    anomalyStatus := .NORMAL }

/-- A quiet cell: temperature 25, voltage 3.7, soh 90. -/
def baseCell : BatteryCell := mkCell 25 (37/10) 90

/-- Pack of 96 cells whose first cell sits exactly at temperature 55; every
voltage equals the pack average and every soh is 90, so neither the
voltage rule nor the soh rule applies anywhere. -/
def packTemp55 : List BatteryCell := mkCell 55 (37/10) 90 :: List.replicate 95 baseCell

/-- Pack of 96 cells whose first cell has temperature 56, otherwise quiet. -/
def packTemp56 : List BatteryCell := mkCell 56 (37/10) 90 :: List.replicate 95 baseCell

/-- Pack of 96 cells in which every cell has temperature 44. -/
def pack44 : List BatteryCell := List.replicate 96 (mkCell 44 (37/10) 90)

/-- Pack of 96 cells whose first cell has soh 65 and temperature 25,
otherwise quiet. -/
def packSoh65 : List BatteryCell := mkCell 25 (37/10) 65 :: List.replicate 95 baseCell

/-- One-cell pack whose only cell is already marked CRITICAL and is not
part of any thermal cluster. -/
def packOneCrit : List BatteryCell := [{ baseCell with anomalyStatus := .CRITICAL }]

/-- Two-cell pack used to exercise `simulateFault` concretely. -/
def packPair : List BatteryCell := [mkCell 25 (37/10) 90, mkCell 30 (37/10) 90]

/-- Twenty-five tick inputs (time label and pack state) for the history claim. -/
def historyInputs : List (String × List BatteryCell) :=
  List.replicate 25 ("t", ([] : List BatteryCell))

end ThermaScan

namespace ThermaScan

theorem detectAnomalies_getElem (pack : List BatteryCell) (i : Nat) :
    (detectAnomalies pack)[i]? =
      (pack[i]?).map fun c => { c with anomalyStatus := classifyCell (avgVoltage pack) c } := by
  simp [detectAnomalies]

/-- Claim C9 -/
theorem update_frame (c : BatteryCell) (r1 r2 r3 r4 : ℚ) :
    (c.update r1 r2 r3 r4).id = c.id ∧
    (c.update r1 r2 r3 r4).row = c.row ∧
    (c.update r1 r2 r3 r4).col = c.col ∧
    (c.update r1 r2 r3 r4).soh = c.soh ∧
    (c.update r1 r2 r3 r4).resistance = c.resistance ∧
    (c.update r1 r2 r3 r4).cycles = c.cycles ∧
    (c.update r1 r2 r3 r4).anomalyStatus = c.anomalyStatus ∧
    (c.update r1 r2 r3 r4).current = c.current + (r3 - 1/2) * 2 :=
  ⟨rfl, rfl, rfl, rfl, rfl, rfl, rfl, rfl⟩

set_option maxRecDepth 10000 in
/-- Claim C8 -/
theorem neighbors_shape : ∀ i, i < 96 →
    (∀ j ∈ getNeighbors i, j < 96 ∧ j ≠ i) ∧
    (isCornerIdx i = true → (getNeighbors i).length = 3) ∧
    (isEdgeNonCornerIdx i = true → (getNeighbors i).length = 5) ∧
    (isInteriorIdx i = true → (getNeighbors i).length = 8) := by decide

theorem neighbors_shape_witness :
    (13 < 96 ∧ isInteriorIdx 13 = true) ∧ (getNeighbors 13).length = 8 :=
  ⟨⟨by decide, by decide⟩, (neighbors_shape 13 (by decide)).2.2.2 (by decide)⟩

/-- Claim C2 counterexample -/
theorem cluster_counterexample :
    clusterSpec40 pack44 0 = true ∧ isThermalCluster pack44 0 = false := by
  refine ⟨by decide, by decide⟩

/-- Claim C2 amended -/
theorem cluster_iff (pack : List BatteryCell) (index : Nat) :
    isThermalCluster pack index = clusterSpec45 pack index := by
  unfold isThermalCluster clusterSpec45
  cases h : pack[index]? with
  | none => rfl
  | some c =>
    by_cases ht : c.temperature < ELEVATED_MAX
    · simp [ht, not_le.mpr ht]
    · simp [ht, not_lt.mp ht]

theorem classifyCell_of_temp_gt (avg : ℚ) (c : BatteryCell)
    (h : CRITICAL_TEMP < c.temperature) : classifyCell avg c = .CRITICAL := by
  unfold classifyCell
  split_ifs <;> simp_all

theorem classifyCell_of_soh_lt (avg : ℚ) (c : BatteryCell)
    (h : c.soh < SOH_CRITICAL) : classifyCell avg c = .CRITICAL := by
  unfold classifyCell
  split_ifs <;> simp_all

theorem classifyCell_quiet (avg : ℚ) (c : BatteryCell)
    (ht : ¬ CRITICAL_TEMP < c.temperature)
    (hv : ¬ VOLTAGE_DEVIATION < |c.voltage - avg| / avg)
    (hs : ¬ c.soh < SOH_CRITICAL) : classifyCell avg c = .NORMAL := by
  unfold classifyCell
  have ht2 : ¬ WARNING_MAX < c.temperature := by
    simpa [WARNING_MAX, CRITICAL_TEMP] using ht
  split_ifs <;> simp_all

theorem classifyCell_voltage_warning (avg : ℚ) (c : BatteryCell)
    (ht : ¬ CRITICAL_TEMP < c.temperature)
    (hv : VOLTAGE_DEVIATION < |c.voltage - avg| / avg)
    (hs : ¬ c.soh < SOH_CRITICAL) : classifyCell avg c = .WARNING := by
  unfold classifyCell
  have ht2 : ¬ WARNING_MAX < c.temperature := by
    simpa [WARNING_MAX, CRITICAL_TEMP] using ht
  split_ifs <;> simp_all

set_option maxRecDepth 10000 in
unseal Rat.add Rat.sub Rat.mul Rat.inv in
/-- Claim C1 counterexample -/
theorem temp55_counterexample :
    (packTemp55[0]?).map (·.temperature) = some 55 ∧
    (packTemp55[0]?).map (·.soh) = some 90 ∧
    avgVoltage packTemp55 = 37/10 ∧
    (packTemp55[0]?).map (·.voltage) = some (37/10) ∧
    ((detectAnomalies packTemp55)[0]?).map (·.anomalyStatus) = some .NORMAL := by
  refine ⟨by decide, by decide, by decide, by decide, by decide⟩

/-- Claim C1 amended -/
theorem detect_temp_boundary (pack : List BatteryCell) (i : Nat) (c : BatteryCell)
    (hc : pack[i]? = some c) :
    (c.temperature = 56 →
      ((detectAnomalies pack)[i]?).map (·.anomalyStatus) = some .CRITICAL) ∧
    (c.temperature = 55 →
      |c.voltage - avgVoltage pack| / avgVoltage pack ≤ VOLTAGE_DEVIATION →
      SOH_CRITICAL ≤ c.soh →
      ((detectAnomalies pack)[i]?).map (·.anomalyStatus) = some .NORMAL) := by
  constructor
  · intro h56
    rw [detectAnomalies_getElem, hc]
    simp only [Option.map_some']
    rw [classifyCell_of_temp_gt _ _ (by rw [h56]; norm_num [CRITICAL_TEMP])]
  · intro h55 hv hs
    rw [detectAnomalies_getElem, hc]
    simp only [Option.map_some']
    rw [classifyCell_quiet _ _ (by rw [h55]; norm_num [CRITICAL_TEMP])
      (not_lt.mpr hv) (not_lt.mpr hs)]

set_option maxRecDepth 10000 in
unseal Rat.add Rat.sub Rat.mul Rat.inv in
/-- Claim C1 witness -/
theorem detect_temp_boundary_witness :
    (packTemp56[0]?) = some (mkCell 56 (37/10) 90) ∧
    (mkCell 56 (37/10) 90).temperature = 56 ∧
    ((detectAnomalies packTemp56)[0]?).map (·.anomalyStatus) = some .CRITICAL :=
  ⟨by decide, by decide,
    (detect_temp_boundary packTemp56 0 (mkCell 56 (37/10) 90) (by decide)).1 (by decide)⟩

/-- Claim C3 -/
theorem detect_rule_precedence (pack : List BatteryCell) (i : Nat) (c : BatteryCell)
    (hc : pack[i]? = some c) :
    (c.soh < SOH_CRITICAL →
      ((detectAnomalies pack)[i]?).map (·.anomalyStatus) = some .CRITICAL) ∧
    (CRITICAL_TEMP < c.temperature →
      ((detectAnomalies pack)[i]?).map (·.anomalyStatus) = some .CRITICAL) ∧
    (c.temperature ≤ CRITICAL_TEMP →
      VOLTAGE_DEVIATION < |c.voltage - avgVoltage pack| / avgVoltage pack →
      SOH_CRITICAL ≤ c.soh →
      ((detectAnomalies pack)[i]?).map (·.anomalyStatus) = some .WARNING) ∧
    (c.soh = 65 → c.temperature = 25 →
      ((detectAnomalies pack)[i]?).map (·.anomalyStatus) = some .CRITICAL) := by
  refine ⟨?_, ?_, ?_, ?_⟩
  · intro hs
    rw [detectAnomalies_getElem, hc]
    simp only [Option.map_some']
    rw [classifyCell_of_soh_lt _ _ hs]
  · intro ht
    rw [detectAnomalies_getElem, hc]
    simp only [Option.map_some']
    rw [classifyCell_of_temp_gt _ _ ht]
  · intro ht hv hs
    rw [detectAnomalies_getElem, hc]
    simp only [Option.map_some']
    rw [classifyCell_voltage_warning _ _ (not_lt.mpr ht) hv (not_lt.mpr hs)]
  · intro hs ht
    rw [detectAnomalies_getElem, hc]
    simp only [Option.map_some']
    rw [classifyCell_of_soh_lt _ _ (by rw [hs]; norm_num [SOH_CRITICAL])]

set_option maxRecDepth 10000 in
unseal Rat.add Rat.sub Rat.mul Rat.inv in
/-- Claim C3 witness -/
theorem detect_rule_precedence_witness :
    (packSoh65[0]?) = some (mkCell 25 (37/10) 65) ∧
    (mkCell 25 (37/10) 65).soh = 65 ∧
    (mkCell 25 (37/10) 65).temperature = 25 ∧
    ((detectAnomalies packSoh65)[0]?).map (·.anomalyStatus) = some .CRITICAL :=
  ⟨by decide, by decide, by decide,
    (detect_rule_precedence packSoh65 0 (mkCell 25 (37/10) 65) (by decide)).2.2.2
      (by decide) (by decide)⟩

/-- Claim C4 -/
theorem cell_bounds (id : String) (row col : Nat) (r1 r2 r3 r4 r5 r6 r7 : ℚ)
    (h1 : 0 ≤ r1) (h1b : r1 < 1) (h2 : 0 ≤ r2) (h2b : r2 < 1)
    (h4 : 0 ≤ r4) (h4b : r4 < 1) :
    (20 ≤ (BatteryCell.create id row col r1 r2 r3 r4 r5 r6 r7).temperature ∧
     (BatteryCell.create id row col r1 r2 r3 r4 r5 r6 r7).temperature ≤ 60 ∧
     3 ≤ (BatteryCell.create id row col r1 r2 r3 r4 r5 r6 r7).voltage ∧
     (BatteryCell.create id row col r1 r2 r3 r4 r5 r6 r7).voltage ≤ 21/5 ∧
     0 ≤ (BatteryCell.create id row col r1 r2 r3 r4 r5 r6 r7).soc ∧
     (BatteryCell.create id row col r1 r2 r3 r4 r5 r6 r7).soc ≤ 100) ∧
    ∀ (c : BatteryCell) (s1 s2 s3 s4 : ℚ),
      20 ≤ (c.update s1 s2 s3 s4).temperature ∧
      (c.update s1 s2 s3 s4).temperature ≤ 60 ∧
      3 ≤ (c.update s1 s2 s3 s4).voltage ∧
      (c.update s1 s2 s3 s4).voltage ≤ 21/5 ∧
      0 ≤ (c.update s1 s2 s3 s4).soc ∧
      (c.update s1 s2 s3 s4).soc ≤ 100 := by
  constructor
  · refine ⟨?_, ?_, ?_, ?_, ?_, ?_⟩ <;>
    · simp only [BatteryCell.create, randomInRange]
      nlinarith
  · intro c s1 s2 s3 s4
    simp only [BatteryCell.update]
    refine ⟨le_max_left _ _, max_le (by norm_num) (min_le_left _ _),
      le_max_left _ _, max_le (by norm_num) (min_le_left _ _),
      le_max_left _ _, max_le (by norm_num) (min_le_left _ _)⟩

set_option maxRecDepth 10000 in
unseal Rat.add Rat.sub Rat.mul Rat.inv in
/-- Claim C4 witness -/
theorem cell_bounds_witness :
    (20 ≤ (BatteryCell.create "CELL-001" 0 0 (1/2) (1/2) (1/2) (1/2) (1/2) (1/2) (1/2)).temperature ∧
     (BatteryCell.create "CELL-001" 0 0 (1/2) (1/2) (1/2) (1/2) (1/2) (1/2) (1/2)).temperature ≤ 60 ∧
     3 ≤ (BatteryCell.create "CELL-001" 0 0 (1/2) (1/2) (1/2) (1/2) (1/2) (1/2) (1/2)).voltage ∧
     (BatteryCell.create "CELL-001" 0 0 (1/2) (1/2) (1/2) (1/2) (1/2) (1/2) (1/2)).voltage ≤ 21/5 ∧
     0 ≤ (BatteryCell.create "CELL-001" 0 0 (1/2) (1/2) (1/2) (1/2) (1/2) (1/2) (1/2)).soc ∧
     (BatteryCell.create "CELL-001" 0 0 (1/2) (1/2) (1/2) (1/2) (1/2) (1/2) (1/2)).soc ≤ 100) ∧
    (20 ≤ (baseCell.update (1/2) (1/2) (1/2) (1/2)).temperature ∧
     (baseCell.update (1/2) (1/2) (1/2) (1/2)).temperature ≤ 60 ∧
     3 ≤ (baseCell.update (1/2) (1/2) (1/2) (1/2)).voltage ∧
     (baseCell.update (1/2) (1/2) (1/2) (1/2)).voltage ≤ 21/5 ∧
     0 ≤ (baseCell.update (1/2) (1/2) (1/2) (1/2)).soc ∧
     (baseCell.update (1/2) (1/2) (1/2) (1/2)).soc ≤ 100) :=
  ⟨(cell_bounds "CELL-001" 0 0 (1/2) (1/2) (1/2) (1/2) (1/2) (1/2) (1/2)
      (by decide) (by decide) (by decide) (by decide) (by decide) (by decide)).1,
   (cell_bounds "CELL-001" 0 0 (1/2) (1/2) (1/2) (1/2) (1/2) (1/2) (1/2)
      (by decide) (by decide) (by decide) (by decide) (by decide) (by decide)).2
      baseCell (1/2) (1/2) (1/2) (1/2)⟩

/-- Claim C5 -/
theorem aggregate_banner (pack : List BatteryCell) :
    (0 < (criticalCells pack).length → 3 ≤ (clusterCells pack).length →
      aggregateStatus pack = "THERMAL CLUSTER DETECTED") ∧
    (0 < (criticalCells pack).length → (clusterCells pack).length < 3 →
      aggregateStatus pack = "CRITICAL") ∧
    ((criticalCells pack).length = 0 → 0 < (warningCells pack).length →
      aggregateStatus pack = "WARNING") ∧
    ((criticalCells pack).length = 0 → (warningCells pack).length = 0 →
      aggregateStatus pack = "NORMAL") := by
  unfold aggregateStatus
  refine ⟨?_, ?_, ?_, ?_⟩ <;> intro h1 h2 <;> split_ifs <;> first | rfl | omega

/-- Claim C5 witness -/
theorem aggregate_banner_witness :
    0 < (criticalCells packOneCrit).length ∧
    (clusterCells packOneCrit).length < 3 ∧
    aggregateStatus packOneCrit = "CRITICAL" :=
  ⟨by decide, by decide, (aggregate_banner packOneCrit).2.1 (by decide) (by decide)⟩

theorem avgVoltage_detectAnomalies (pack : List BatteryCell) :
    avgVoltage (detectAnomalies pack) = avgVoltage pack := by
  unfold avgVoltage detectAnomalies
  rw [List.foldl_map, List.length_map]

/-- Claim C10 -/
theorem detect_idempotent (pack : List BatteryCell) :
    detectAnomalies (detectAnomalies pack) = detectAnomalies pack := by
  rw [detectAnomalies]
  rw [avgVoltage_detectAnomalies]
  rw [detectAnomalies]
  rw [List.map_map]
  rfl

theorem histFold_append (l : List TempSample) (s : TempSample) :
    histFold (l ++ [s]) = pushSample (histFold l) s := by
  unfold histFold
  rw [List.foldl_append]
  rfl

theorem histFold_eq_drop (l : List TempSample) :
    histFold l = l.drop (l.length - 20) := by
  induction l using List.reverseRecOn with
  | nil => rfl
  | append_singleton l s ih =>
    rw [histFold_append, ih]
    unfold pushSample
    have hl : (l ++ [s]).length = l.length + 1 := by
      rw [List.length_append, List.length_singleton]
    by_cases h : l.length ≤ 19
    · have h0 : l.length - 20 = 0 := by omega
      have h1 : (l ++ [s]).length - 20 = 0 := by omega
      rw [h0, h1, List.drop_zero, List.drop_zero]
      have h2 : ¬ 20 < (l ++ [s]).length := by omega
      simp only [h2, if_false]
    · have h3 : 20 ≤ l.length := by omega
      have hd : (l.drop (l.length - 20)).length = 20 := by
        rw [List.length_drop]; omega
      have h2 : 20 < (l.drop (l.length - 20) ++ [s]).length := by
        rw [List.length_append, List.length_singleton, hd]
        omega
      simp only [h2, if_true]
      rw [List.drop_append_of_le_length (by omega : 1 ≤ (l.drop (l.length - 20)).length),
        List.drop_drop,
        List.drop_append_of_le_length (by omega : (l ++ [s]).length - 20 ≤ l.length)]
      have h4 : (l ++ [s]).length - 20 = l.length - 20 + 1 := by omega
      rw [h4]

theorem runMetrics_eq_histFold (inputs : List (String × List BatteryCell)) :
    runMetrics inputs = histFold (inputs.map fun q => mkTempSample q.1 q.2) := by
  unfold runMetrics histFold
  rw [List.foldl_map]

/-- Claim C7 -/
theorem history_window (inputs : List (String × List BatteryCell)) :
    runMetrics inputs = (inputs.map fun q => mkTempSample q.1 q.2).drop (inputs.length - 20) ∧
    (runMetrics inputs).length ≤ 20 ∧
    (inputs.length = 25 → runMetrics inputs = (inputs.map fun q => mkTempSample q.1 q.2).drop 5) := by
  have hmain : runMetrics inputs =
      (inputs.map fun q => mkTempSample q.1 q.2).drop (inputs.length - 20) := by
    rw [runMetrics_eq_histFold, histFold_eq_drop, List.length_map]
  refine ⟨hmain, ?_, ?_⟩
  · rw [hmain, List.length_drop, List.length_map]
    omega
  · intro h25
    rw [hmain, h25]

/-- Claim C7 witness -/
theorem history_window_witness :
    historyInputs.length = 25 ∧
    runMetrics historyInputs = (historyInputs.map fun q => mkTempSample q.1 q.2).drop 5 :=
  ⟨by decide, (history_window historyInputs).2.2 (by decide)⟩

theorem updateCellAt_length (pack : List BatteryCell) (i : Nat)
    (f : BatteryCell → BatteryCell) :
    (updateCellAt pack i f).length = pack.length := by
  induction pack generalizing i with
  | nil => rfl
  | cons c rest ih =>
    cases i with
    | zero => rfl
    | succ n => simp [updateCellAt, ih]

theorem updateCellAt_getElem_self (pack : List BatteryCell) (i : Nat)
    (f : BatteryCell → BatteryCell) :
    (updateCellAt pack i f)[i]? = (pack[i]?).map f := by
  induction pack generalizing i with
  | nil => simp [updateCellAt]
  | cons c rest ih =>
    cases i with
    | zero => simp [updateCellAt]
    | succ n => simpa [updateCellAt] using ih n

theorem updateCellAt_getElem_ne (pack : List BatteryCell) (i j : Nat)
    (f : BatteryCell → BatteryCell) (h : j ≠ i) :
    (updateCellAt pack i f)[j]? = pack[j]? := by
  induction pack generalizing i j with
  | nil => rfl
  | cons c rest ih =>
    cases i with
    | zero =>
      cases j with
      | zero => exact absurd rfl h
      | succ m => simp [updateCellAt]
    | succ n =>
      cases j with
      | zero => simp [updateCellAt]
      | succ m => simpa [updateCellAt] using ih n m (fun hh => h (by rw [hh]))

theorem foldl_updateCellAt_length (l : List (Nat × Nat))
    (g : Nat → BatteryCell → BatteryCell) (acc : List BatteryCell) :
    (l.foldl (fun a kn => updateCellAt a kn.2 (g kn.1)) acc).length = acc.length := by
  induction l generalizing acc with
  | nil => rfl
  | cons kn rest ih =>
    rw [List.foldl_cons, ih, updateCellAt_length]

theorem foldl_updateCellAt_untouched (l : List (Nat × Nat))
    (g : Nat → BatteryCell → BatteryCell) (acc : List BatteryCell) (j : Nat)
    (h : ∀ kn ∈ l, kn.2 ≠ j) :
    (l.foldl (fun a kn => updateCellAt a kn.2 (g kn.1)) acc)[j]? = acc[j]? := by
  induction l generalizing acc with
  | nil => rfl
  | cons kn rest ih =>
    rw [List.foldl_cons, ih _ (fun x hx => h x (List.mem_cons_of_mem _ hx)),
      updateCellAt_getElem_ne _ _ _ _ (Ne.symm (h kn (List.mem_cons_self _ _)))]

theorem foldl_updateCellAt_mem (l : List (Nat × Nat))
    (g : Nat → BatteryCell → BatteryCell) (acc : List BatteryCell) (n : Nat)
    (hn : n ∈ l.map Prod.snd) (c' : BatteryCell)
    (hc : (l.foldl (fun a kn => updateCellAt a kn.2 (g kn.1)) acc)[n]? = some c') :
    ∃ k c, c' = g k c := by
  induction l generalizing acc with
  | nil => simp at hn
  | cons kn rest ih =>
    by_cases hmem : n ∈ rest.map Prod.snd
    · rw [List.foldl_cons] at hc
      exact ih _ hmem hc
    · have hn2 : kn.2 = n := by
        rw [List.map_cons, List.mem_cons] at hn
        rcases hn with h1 | h2
        · exact h1.symm
        · exact absurd h2 hmem
      rw [List.foldl_cons,
        foldl_updateCellAt_untouched rest g _ n
          (fun x hx hxn => hmem (hxn ▸ List.mem_map_of_mem Prod.snd hx)),
        hn2, updateCellAt_getElem_self] at hc
      rcases Option.map_eq_some'.mp hc with ⟨c, _, hgc⟩
      exact ⟨kn.1, c, hgc.symm⟩

theorem neighbors_mem_facts : ∀ i, i < 96 → ∀ j ∈ getNeighbors i, j < 96 ∧ j ≠ i := by
  decide

theorem snd_mem_of_mem_enum {α : Type} {l : List α} {kn : Nat × α}
    (h : kn ∈ l.enum) : kn.2 ∈ l := by
  rw [← List.enum_map_snd l]
  exact List.mem_map_of_mem Prod.snd h

/-- Claim C6 -/
theorem simulateFault_archetypes (pack : List BatteryCell) (faultType : ℚ)
    (randomIndex : Nat) (draws : Nat → ℚ) :
    (faultType < 33/100 → 0 ≤ draws 0 →
      ((simulateFault pack faultType randomIndex draws)[randomIndex]? =
        (pack[randomIndex]?).map fun c =>
          { c with temperature := CRITICAL_TEMP + draws 0 * 10 }) ∧
      CRITICAL_TEMP ≤ CRITICAL_TEMP + draws 0 * 10 ∧
      (∀ j, j ≠ randomIndex →
        (simulateFault pack faultType randomIndex draws)[j]? = pack[j]?)) ∧
    (33/100 ≤ faultType → faultType < 66/100 → randomIndex < 96 → (∀ k, 0 ≤ draws k) →
      (∀ n ∈ randomIndex :: (getNeighbors randomIndex).take 3,
        ∀ c', (simulateFault pack faultType randomIndex draws)[n]? = some c' →
          NORMAL_MAX ≤ c'.temperature) ∧
      (∀ j, j ∉ randomIndex :: (getNeighbors randomIndex).take 3 →
        (simulateFault pack faultType randomIndex draws)[j]? = pack[j]?)) ∧
    (66/100 ≤ faultType →
      ((simulateFault pack faultType randomIndex draws)[randomIndex]? =
        (pack[randomIndex]?).map fun c =>
          { c with voltage := avgVoltage pack * (1 + VOLTAGE_DEVIATION + 5/100) }) ∧
      avgVoltage pack * (1 + VOLTAGE_DEVIATION + 5/100) = avgVoltage pack * (115/100) ∧
      (∀ j, j ≠ randomIndex →
        (simulateFault pack faultType randomIndex draws)[j]? = pack[j]?)) := by
  refine ⟨?_, ?_, ?_⟩
  · -- isolated hotspot branch
    intro h1 hd
    have hsim : simulateFault pack faultType randomIndex draws =
        updateCellAt pack randomIndex
          (fun c => { c with temperature := CRITICAL_TEMP + draws 0 * 10 }) := by
      unfold simulateFault
      rw [if_pos h1]
    have h10 : 0 ≤ draws 0 * 10 := mul_nonneg hd (by norm_num)
    refine ⟨?_, by linarith, ?_⟩
    · rw [hsim, updateCellAt_getElem_self]
    · intro j hj
      rw [hsim, updateCellAt_getElem_ne _ _ _ _ hj]
  · -- thermal cluster branch
    intro h1 h2 hidx hd
    have hns : ∀ j ∈ (getNeighbors randomIndex).take 3, j < 96 ∧ j ≠ randomIndex :=
      fun j hj => neighbors_mem_facts randomIndex hidx j (List.take_subset 3 _ hj)
    have hself : randomIndex ∉ (getNeighbors randomIndex).take 3 :=
      fun hmem => (hns randomIndex hmem).2 rfl
    have hsim : simulateFault pack faultType randomIndex draws =
        (((getNeighbors randomIndex).take 3).enum).foldl
          (fun acc kn => updateCellAt acc kn.2 (clusterNeighborSet draws kn.1))
          (updateCellAt pack randomIndex (clusterCenterSet draws)) := by
      unfold simulateFault
      rw [if_neg (not_lt.mpr h1), if_pos h2]
      rfl
    constructor
    · intro n hn c' hc
      rw [hsim] at hc
      rcases List.mem_cons.mp hn with hcenter | hnb
      · -- the center cell
        have hfar : ∀ kn ∈ (((getNeighbors randomIndex).take 3).enum), kn.2 ≠ randomIndex := by
          intro kn hkn hkne
          have hm := snd_mem_of_mem_enum hkn
          rw [hkne] at hm
          exact hself hm
        rw [hcenter] at hc
        rw [foldl_updateCellAt_untouched _ (clusterNeighborSet draws) _ _ hfar,
          updateCellAt_getElem_self] at hc
        rcases Option.map_eq_some'.mp hc with ⟨c, _, hgc⟩
        rw [← hgc]
        have h5 : 0 ≤ draws 0 * 5 := mul_nonneg (hd 0) (by norm_num)
        simp only [clusterCenterSet, NORMAL_MAX, ELEVATED_MAX]
        linarith
      · -- one of the first three neighbours
        have hn' : n ∈ (((getNeighbors randomIndex).take 3).enum).map Prod.snd := by
          rw [List.enum_map_snd]
          exact hnb
        rcases foldl_updateCellAt_mem _ (clusterNeighborSet draws) _ _ hn' _ hc with ⟨k, c, hgc⟩
        rw [hgc]
        have h5 : 0 ≤ draws (k + 1) * 5 := mul_nonneg (hd (k + 1)) (by norm_num)
        simp only [clusterNeighborSet, NORMAL_MAX, ELEVATED_MAX]
        linarith
    · intro j hj
      have hj1 : j ≠ randomIndex := fun hh => hj (hh ▸ List.mem_cons_self _ _)
      have hj2 : j ∉ (getNeighbors randomIndex).take 3 :=
        fun hh => hj (List.mem_cons_of_mem _ hh)
      have hfar2 : ∀ kn ∈ (((getNeighbors randomIndex).take 3).enum), kn.2 ≠ j := by
        intro kn hkn hkne
        have hm := snd_mem_of_mem_enum hkn
        rw [hkne] at hm
        exact hj2 hm
      rw [hsim, foldl_updateCellAt_untouched _ (clusterNeighborSet draws) _ _ hfar2,
        updateCellAt_getElem_ne _ _ _ _ hj1]
  · -- voltage imbalance branch
    intro h1
    have hsim : simulateFault pack faultType randomIndex draws =
        updateCellAt pack randomIndex
          (fun c => { c with voltage := avgVoltage pack * (1 + VOLTAGE_DEVIATION + 5/100) }) := by
      unfold simulateFault
      rw [if_neg (not_lt.mpr (le_trans (by norm_num) h1)),
        if_neg (not_lt.mpr h1)]
    refine ⟨?_, ?_, ?_⟩
    · rw [hsim, updateCellAt_getElem_self]
    · rw [VOLTAGE_DEVIATION]
      norm_num
    · intro j hj
      rw [hsim, updateCellAt_getElem_ne _ _ _ _ hj]

set_option maxRecDepth 10000 in
unseal Rat.add Rat.sub Rat.mul Rat.inv in
/-- Claim C6 witness -/
theorem simulateFault_archetypes_witness :
    ((simulateFault packPair (1/5) 0 (fun _ => 1/2))[0]? =
      (packPair[0]?).map fun c => { c with temperature := CRITICAL_TEMP + (1/2) * 10 }) ∧
    CRITICAL_TEMP ≤ CRITICAL_TEMP + (1/2) * 10 ∧
    (simulateFault packPair (1/5) 0 (fun _ => 1/2))[1]? = packPair[1]? := by
  have h := (simulateFault_archetypes packPair (1/5) 0 (fun _ => 1/2)).1
    (by decide) (by decide)
  exact ⟨h.1, h.2.1, h.2.2 1 (by decide)⟩

end ThermaScan
